import Mathlib

/-!
Verification development for `bastion_tunnels_inventory.py`
(konstruktoid/ansible-bastion-tunnels).

The script is shallowly embedded: the OS process table, the Azure
control-plane lookups and the launched subprocesses are made explicit
inputs/outputs, while every decision made by the Python code
(token matching, bastion resolution, inventory assembly, the top-level
command flow and JSON serialization) is translated function by function.
-/

/-! ### Process table and the Process Correlator (`list_tunnels`) -/

/-- One entry of the OS process table as seen by `psutil.process_iter()`.
`vanished = true` models a process that disappears between enumeration and
inspection, so that `proc.cmdline()` / `proc.status()` raise
`psutil.NoSuchProcess` when called on it. -/
structure Proc where
  pid : Nat
  cmdline : List String
  status : String
  vanished : Bool
deriving DecidableEq

/-- The fixed token list `tunnel` from `list_tunnels` (lines 89-95). -/
def tunnelTokens : List String :=
  ["network", "bastion", "tunnel", "--resource-group", "--target-resource-id"]

/-- The record serialized for each matching process (lines 99-105). -/
structure TunnelInfo where
  pid : Nat
  cmdline : List String
  status : String
deriving DecidableEq

/-- The matching test of line 97: `all(cmdline in proc.cmdline() for cmdline in tunnel)`.
`proc.cmdline()` is a Python list of strings, so `in` is list-element
membership (exact string equality), not substring search. -/
def codeMatches (p : Proc) : Bool :=
  tunnelTokens.all fun t => decide (t ∈ p.cmdline)

/-- Function `list_tunnels` (lines 84-108).  Iterates the process table; a vanished
process makes `proc.cmdline()` raise `psutil.NoSuchProcess`, which is not
caught anywhere, so the whole scan aborts (modelled by `Except.error pid`). -/
def list_tunnels : List Proc → Except Nat (List TunnelInfo)
  | [] => Except.ok []
  | p :: ps =>
    if p.vanished then Except.error p.pid
    else if codeMatches p then
      match list_tunnels ps with
      | Except.error e => Except.error e
      | Except.ok rest => Except.ok (TunnelInfo.mk p.pid p.cmdline p.status :: rest)
    else list_tunnels ps

/-- Whether the character list `needle` equals a leading segment of `hay`. -/
def startsWithChars : List Char → List Char → Bool
  | [], _ => true
  | _ :: _, [] => false
  | a :: as, b :: bs => decide (a = b) && startsWithChars as bs

/-- Whether `needle` occurs contiguously anywhere inside `hay`. -/
def containsChars (needle : List Char) : List Char → Bool
  | [] => needle.isEmpty
  | c :: rest => startsWithChars needle (c :: rest) || containsChars needle rest

/-- Whether `tok` occurs as a substring of `hay`. -/
def strContains (hay tok : String) : Bool := containsChars tok.data hay.data

/-- Modelled from the spec: "a process qualifies if every token in this set
appears anywhere in its command line (order-independent, substring match per
token)".  Each required token must occur as a substring of some element of the
command line. -/
def specMatches (p : Proc) : Bool :=
  tunnelTokens.all fun t => p.cmdline.any fun e => strContains e t

/-- A process whose whole Azure command line is a single string element:
every required token occurs in it as a substring, but none of the tokens is
an exact element of the list. -/
def joinedProc : Proc :=
  Proc.mk 3 ["az network bastion tunnel --resource-group g --target-resource-id i"]
    "running" false

/-! ### Cloud Resolver (`bastion_name`, `resource_id`) -/

/-- One bastion host as returned by
`client.bastion_hosts.list_by_resource_group` (lines 209-211). -/
structure Bastion where
  name : String
  enableTunneling : Bool
deriving DecidableEq

/-- The loop of `bastion_name` (lines 213-217): each iteration overwrites
`bastion` with the name of the current item and returns `None` as soon as an item
has `enable_tunneling is False`.  The accumulator `acc` is the current value
of the `bastion` variable. -/
def bastionAux : Option String → List Bastion → Option String
  | acc, [] => acc
  | _, b :: bs => if b.enableTunneling = false then none else bastionAux (some b.name) bs

/-- Function `bastion_name` (lines 200-219), as a function of the listing returned by
the control plane for the resource group. -/
def bastion_name (listing : List Bastion) : Option String :=
  bastionAux none listing

/-- The name of the last entry of a bastion listing (used to state what
`bastion_name` actually returns). -/
def lastName : List Bastion → Option String
  | [] => none
  | [b] => some b.name
  | _ :: b :: bs => lastName (b :: bs)

/-! ### Configuration, environment and the Inventory Builder -/

/-- A YAML scalar stored in the variable map of a host. -/
inductive Value where
  | str (s : String)
  | nat (n : Nat)
deriving DecidableEq

/-- A host entry of the configuration document: `resource_group` and
`ansible_port` are required by the code (lines 122, 149), `ansible_user` and
`ansible_host` are optional extra variables (spec section 6). -/
structure HostSpec where
  resource_group : String
  ansible_port : Nat
  ansible_user : Option String
  ansible_host : Option String
deriving DecidableEq

/-- The ordered key/value pairs of a host entry, i.e. the Python call
`value.items()` (line 163): exactly the configured variables, nothing added. -/
def HostSpec.items (v : HostSpec) : List (String × Value) :=
  [("resource_group", Value.str v.resource_group),
   ("ansible_port", Value.nat v.ansible_port)]
  ++ (match v.ansible_user with
      | some u => [("ansible_user", Value.str u)]
      | none => [])
  ++ (match v.ansible_host with
      | some h => [("ansible_host", Value.str h)]
      | none => [])

/-- The `hosts` mapping of one group, in declaration order. -/
structure GroupConfig where
  hosts : List (String × HostSpec)
deriving DecidableEq

/-- The whole configuration document: top-level groups in declaration order. -/
abbrev Config := List (String × GroupConfig)

/-- The remote control plane: the bastion listing of each resource group and
the optional resource id of each (resource group, VM name) pair
(`ResourceNotFoundError` is modelled by `none`). -/
structure Env where
  bastions : String → List Bastion
  resourceIds : String → String → Option String

/-- One `az network bastion tunnel` subprocess spawned by lines 135-157. -/
structure Launch where
  bastion : String
  resourceGroup : String
  targetId : String
  port : Nat
deriving DecidableEq

/-- The inventory dictionary built by `generate_inventory`:
`{group_name: {"hosts": [...]}, "_meta": {"hostvars": {...}}}`. -/
structure Inventory where
  groupName : String
  hosts : List String
  hostvars : List (String × List (String × Value))
deriving DecidableEq

/-- Result of running `generate_inventory`: normal return, `sys.exit(1)`
after printing a message, or an uncaught Python exception.  Both non-ok
outcomes carry the tunnel subprocesses already launched before the stop. -/
inductive Outcome where
  | ok (inv : Inventory) (launches : List Launch)
  | exit1 (msg : String) (launches : List Launch)
  | exc (kind : String) (launches : List Launch)
deriving DecidableEq

/-- The per-host loop of `generate_inventory` (lines 121-164): check the
bastion (fatal if `None`), then the resource id (silently skip the host if
`None`), otherwise launch the tunnel and record the host and its variables. -/
def buildHosts (env : Env) :
    List (String × HostSpec) →
      Except (String × List Launch)
        (List String × List (String × List (String × Value)) × List Launch)
  | [] => Except.ok ([], [], [])
  | (host, v) :: rest =>
    match bastion_name (env.bastions v.resource_group) with
    | none =>
        Except.error
          ("A valid bastion host was not found in resource group "
            ++ v.resource_group ++ ".", [])
    | some b =>
      match env.resourceIds v.resource_group host with
      | none => buildHosts env rest
      | some tid =>
        match buildHosts env rest with
        | Except.error (msg, ls) =>
            Except.error (msg, Launch.mk b v.resource_group tid v.ansible_port :: ls)
        | Except.ok (hs, hv, ls) =>
            Except.ok (host :: hs, (host, v.items) :: hv,
              Launch.mk b v.resource_group tid v.ansible_port :: ls)

/-- Function `generate_inventory` (lines 111-166).  `list(config.keys())[0]` raises
`IndexError` on an empty document; only the first group is processed. -/
def generate_inventory (config : Config) (env : Env) : Outcome :=
  match config with
  | [] => Outcome.exc "IndexError" []
  | (g, gc) :: _ =>
    match buildHosts env gc.hosts with
    | Except.error (msg, ls) => Outcome.exit1 msg ls
    | Except.ok (hs, hv, ls) => Outcome.ok (Inventory.mk g hs hv) ls

/-- Association-list lookup, i.e. reading one key of a hostvars dict. -/
def lookupVar (k : String) : List (String × Value) → Option Value
  | [] => none
  | (k2, v) :: rest => if k2 = k then some v else lookupVar k rest

/-- The tunnels launched for a list of hosts that all have a resolvable
bastion (used to describe what has already been spawned when a later host
aborts the build). -/
def launchesOf (env : Env) : List (String × HostSpec) → List Launch
  | [] => []
  | (host, v) :: rest =>
    match bastion_name (env.bastions v.resource_group),
          env.resourceIds v.resource_group host with
    | some b, some tid =>
        Launch.mk b v.resource_group tid v.ansible_port :: launchesOf env rest
    | _, _ => launchesOf env rest

/-! ### JSON serialization (`json.dumps` with `sort_keys` / `indent`) -/

/-- Decimal digit character. -/
def digitChar (n : Nat) : Char :=
  if n = 0 then '0' else if n = 1 then '1' else if n = 2 then '2'
  else if n = 3 then '3' else if n = 4 then '4' else if n = 5 then '5'
  else if n = 6 then '6' else if n = 7 then '7' else if n = 8 then '8' else '9'

/-- Decimal rendering of a natural number as a character list. -/
def natChars (n : Nat) : List Char :=
  if h : n < 10 then [digitChar n]
  else natChars (n / 10) ++ [digitChar (n % 10)]
decreasing_by exact Nat.div_lt_self (Nat.lt_of_lt_of_le (by omega) (Nat.le_of_not_lt h)) (by omega)

/-- Decimal rendering of a natural number as a string. -/
def natToString (n : Nat) : String := String.mk (natChars n)

/-- JSON string escaping of one character (quote, backslash and the common
control characters, as `json.dumps` does). -/
def escChar (c : Char) : List Char :=
  if c = '"' then ['\\', '"']
  else if c = '\\' then ['\\', '\\']
  else if c = '\x0a' then ['\\', 'n']
  else if c = '\x09' then ['\\', 't']
  else if c = '\x0d' then ['\\', 'r']
  else [c]

/-- JSON string escaping of a character list. -/
def escChars : List Char → List Char
  | [] => []
  | c :: rest => escChar c ++ escChars rest

/-- A JSON string literal: quoted and escaped. -/
def escString (s : String) : String :=
  String.mk ('"' :: escChars s.data ++ ['"'])

/-- The JSON values produced by this script: strings, non-negative integers,
arrays of strings, and objects. -/
inductive Json where
  | str (s : String)
  | num (n : Nat)
  | arrStr (xs : List String)
  | obj (kvs : List (String × Json))

instance : DecidableRel (fun p q : String × Json => p.1 ≤ q.1) :=
  fun p q => inferInstanceAs (Decidable (p.1 ≤ q.1))

instance : IsTotal (String × Json) (fun p q => p.1 ≤ q.1) :=
  ⟨fun a b => le_total a.1 b.1⟩

instance : IsTrans (String × Json) (fun p q => p.1 ≤ q.1) :=
  ⟨fun _ _ _ h1 h2 => le_trans h1 h2⟩

/-- Sorting the entries of one object by key (`sort_keys=True`). -/
def sortObj (l : List (String × Json)) : List (String × Json) :=
  List.insertionSort (fun p q => p.1 ≤ q.1) l

mutual

/-- Recursively sort the entries of every object by key, as `sort_keys=True`
does at each level during serialization. -/
def sortJson : Json → Json
  | Json.str s => Json.str s
  | Json.num n => Json.num n
  | Json.arrStr xs => Json.arrStr xs
  | Json.obj kvs => Json.obj (sortObj (sortJsonKVs kvs))

/-- Key/value list with every value recursively key-sorted. -/
def sortJsonKVs : List (String × Json) → List (String × Json)
  | [] => []
  | (k, v) :: rest => (k, sortJson v) :: sortJsonKVs rest

end

/-- The newline emitted by `indent=2` mode. -/
def nl : String := "\x0a"

/-- Indentation of `2 * lvl` spaces. -/
def spaces : Nat → String
  | 0 => ""
  | n + 1 => "  " ++ spaces n

/-- Compact rendering of the elements of a string array
(`", "` separators, as `json.dumps` without `indent`). -/
def renderStrsC : List String → String
  | [] => ""
  | [x] => escString x
  | x :: y :: rest => escString x ++ ", " ++ renderStrsC (y :: rest)

/-- Indented rendering of the elements of a string array, one per line. -/
def renderStrsP (lvl : Nat) : List String → String
  | [] => ""
  | [x] => spaces lvl ++ escString x
  | x :: y :: rest => spaces lvl ++ escString x ++ "," ++ nl ++ renderStrsP lvl (y :: rest)

mutual

/-- Rendering of an (already key-sorted) JSON value, following `json.dumps`:
compact mode uses `", "` and `": "` separators on a single line; with
`pretty` (the model of `indent=2`) entries are placed one per line with
two-space indentation. -/
def render (pretty : Bool) (lvl : Nat) : Json → String
  | Json.str s => escString s
  | Json.num n => natToString n
  | Json.arrStr [] => "[]"
  | Json.arrStr (x :: xs) =>
      if pretty then
        "[" ++ nl ++ renderStrsP (lvl + 1) (x :: xs) ++ nl ++ spaces lvl ++ "]"
      else "[" ++ renderStrsC (x :: xs) ++ "]"
  | Json.obj [] => "\x7b\x7d"
  | Json.obj (kv :: rest) =>
      if pretty then
        "\x7b" ++ nl ++ renderItems pretty (lvl + 1) (kv :: rest) ++ nl
          ++ spaces lvl ++ "\x7d"
      else "\x7b" ++ renderItems pretty (lvl + 1) (kv :: rest) ++ "\x7d"

/-- Rendering of the entries of one object. -/
def renderItems (pretty : Bool) (lvl : Nat) : List (String × Json) → String
  | [] => ""
  | [(k, v)] =>
      (if pretty then spaces lvl else "") ++ escString k ++ ": " ++ render pretty lvl v
  | (k, v) :: kv2 :: rest =>
      (if pretty then spaces lvl else "") ++ escString k ++ ": " ++ render pretty lvl v
        ++ (if pretty then "," ++ nl else ", ") ++ renderItems pretty lvl (kv2 :: rest)

end

/-- Model of `json.dumps(j, sort_keys=sortKeys, indent=(2 if pretty else None))`. -/
def dumps (j : Json) (sortKeys : Bool) (pretty : Bool) : String :=
  render pretty 0 (if sortKeys then sortJson j else j)

/-- JSON value of a config scalar. -/
def valueJson : Value → Json
  | Value.str s => Json.str s
  | Value.nat n => Json.num n

/-- JSON object of the variable map of one host. -/
def varsJson (vars : List (String × Value)) : Json :=
  Json.obj (vars.map fun p => (p.1, valueJson p.2))

/-- JSON object of the `hostvars` mapping. -/
def hostvarsJson (hv : List (String × List (String × Value))) : Json :=
  Json.obj (hv.map fun p => (p.1, varsJson p.2))

/-- JSON document of the generated inventory, with the insertion order used
by `generate_inventory` (group first, then `_meta`). -/
def invJson (inv : Inventory) : Json :=
  Json.obj
    [(inv.groupName, Json.obj [("hosts", Json.arrStr inv.hosts)]),
     ("_meta", Json.obj [("hostvars", hostvarsJson inv.hostvars)])]

/-- Lines 242-247: `json.dumps(inventory, sort_keys=True, indent=2)` when
`--list` is given, `json.dumps(inventory, sort_keys=True)` otherwise. -/
def json_output (listFlag : Bool) (inv : Inventory) : String :=
  dumps (invJson inv) true listFlag

/-- The dict serialized for one matching tunnel process (lines 99-105),
insertion-ordered, without `sort_keys`. -/
def infoJson (i : TunnelInfo) : Json :=
  Json.obj
    [("pid", Json.num i.pid), ("cmdline", Json.arrStr i.cmdline),
     ("status", Json.str i.status)]

/-- The line printed for one matching tunnel process. -/
def infoLine (i : TunnelInfo) : String := dumps (infoJson i) false false

/-! ### Top-level command flow (module level and the `if` blocks of lines 222-267) -/

/-- The parsed command-line flags: `--list`, `--list-tunnels`, `--kill-tunnels`. -/
structure Flags where
  listFlag : Bool
  listTunnelsFlag : Bool
  killTunnelsFlag : Bool
deriving DecidableEq

/-- How one invocation of the script ends: normal exit, `sys.exit(1)`, or an
uncaught Python exception (which the interpreter reports with a traceback). -/
inductive ExitStatus where
  | exit0
  | exit1
  | exception (kind : String)
deriving DecidableEq

/-- The ambient state an invocation runs against: whether `az` is on PATH,
whether `check_extension()` finds the bastion extension, whether
`credential.get_token` succeeds, the configuration file (absent means
`Path.open` raises `FileNotFoundError`), the control plane, the process
table and which pids still exist at termination time. -/
structure World where
  azInstalled : Bool
  extensionInstalled : Bool
  credentialOk : Bool
  configFile : Option Config
  env : Env
  table : List Proc
  live : Nat → Bool

/-- The build block (lines 222-247), entered when neither `-t` nor `-k` is
given: extension check (one message, exit 1), credential check
(`sys.exit(1)` with no message, lines 228-231), config loading (a missing
file raises `FileNotFoundError`; the `if not read_config` message of line
235 is unreachable because an open file object is always truthy), then
`generate_inventory` and the printed JSON document.  Returns the printed
lines and, when the block terminates the process, how. -/
def buildPhase (flags : Flags) (w : World) : List String × Option ExitStatus :=
  if flags.listTunnelsFlag || flags.killTunnelsFlag then ([], none)
  else if !w.extensionInstalled then
    (["The Azure CLI bastion extension is not installed."], some ExitStatus.exit1)
  else if !w.credentialOk then ([], some ExitStatus.exit1)
  else
    match w.configFile with
    | none => ([], some (ExitStatus.exception "FileNotFoundError"))
    | some config =>
      match generate_inventory config w.env with
      | Outcome.ok inv _ => ([json_output flags.listFlag inv], none)
      | Outcome.exit1 msg _ => ([msg], some ExitStatus.exit1)
      | Outcome.exc k _ => ([], some (ExitStatus.exception k))

/-- The `--list-tunnels` block (lines 249-254): one line per match, or a
"no active tunnels" message; an aborted scan propagates as an exception. -/
def listPhase (table : List Proc) : List String × Option ExitStatus :=
  match list_tunnels table with
  | Except.error _ => ([], some (ExitStatus.exception "NoSuchProcess"))
  | Except.ok [] => (["No active tunnels found."], none)
  | Except.ok infos => (infos.map infoLine, none)

/-- The confirmation line of line 265. -/
def termMsg (p : Nat) : String :=
  "Terminated tunnel process with PID " ++ natToString p ++ "."

/-- The termination loop of lines 262-265: `psutil.Process(pid)` /
`terminate()` raise `NoSuchProcess` on a pid that no longer exists, which is
not caught, aborting the whole command. -/
def killLoop (live : Nat → Bool) : List Nat → List String × Option ExitStatus
  | [] => ([], none)
  | p :: ps =>
    if live p then
      let r := killLoop live ps
      (termMsg p :: r.1, r.2)
    else ([], some (ExitStatus.exception "NoSuchProcess"))

/-- The `--kill-tunnels` block (lines 256-267). -/
def killPhase (table : List Proc) (live : Nat → Bool) : List String × Option ExitStatus :=
  match list_tunnels table with
  | Except.error _ => ([], some (ExitStatus.exception "NoSuchProcess"))
  | Except.ok [] => (["No active tunnels found."], none)
  | Except.ok infos => killLoop live (infos.map TunnelInfo.pid)

/-- One whole invocation of the script: the module-level `az` check
(lines 64-67) runs first for every command; then the build block, the list
block and the kill block in order, stopping at the first `sys.exit` or
uncaught exception.  Returns every line printed and the final status. -/
def mainRun (flags : Flags) (w : World) : List String × ExitStatus :=
  if w.azInstalled then
    let b := buildPhase flags w
    match b.2 with
    | some e => (b.1, e)
    | none =>
      let l := if flags.listTunnelsFlag then listPhase w.table else ([], none)
      match l.2 with
      | some e => (b.1 ++ l.1, e)
      | none =>
        let k := if flags.killTunnelsFlag then killPhase w.table w.live else ([], none)
        match k.2 with
        | some e => (b.1 ++ l.1 ++ k.1, e)
        | none => (b.1 ++ l.1 ++ k.1, ExitStatus.exit0)
  else (["The Azure CLI is not installed."], ExitStatus.exit1)

/-! ### Claim C1: what the Process Correlator matches -/

/-- On a table with no vanishing process, `list_tunnels` keeps exactly the
processes all of whose required tokens are exact elements of the command
line. -/
theorem list_tunnels_clean : ∀ (table : List Proc), (∀ p ∈ table, p.vanished = false) →
    list_tunnels table =
      Except.ok ((table.filter codeMatches).map fun p => TunnelInfo.mk p.pid p.cmdline p.status)
  | [], _ => rfl
  | p :: ps, h => by
      have hp : p.vanished = false := h p (List.mem_cons_self p ps)
      have ih := list_tunnels_clean ps fun q hq => h q (List.mem_cons_of_mem p hq)
      by_cases hc : codeMatches p = true
      · simp [list_tunnels, hp, hc, ih, List.filter_cons]
      · simp [list_tunnels, hp, hc, ih, List.filter_cons]

/-- C1 counterexample: a process whose command line contains every required
token as a substring (the criterion of the spec, `specMatches`) but which
`list_tunnels` does not report, because the Python test `token in proc.cmdline()`
is exact list-element membership on the argument list. -/
theorem c1_counterexample :
    specMatches joinedProc = true ∧ list_tunnels [joinedProc] = Except.ok [] :=
  ⟨by decide, rfl⟩

/-- C1 (amended): for a process table in which no process vanishes during
the scan, `list_tunnels` includes a process if and only if every token of
the fixed set is an exact element of its command-line argument list
(order-independent, exact string equality per token, not substring match). -/
theorem c1_amended (table : List Proc) (hnv : ∀ p ∈ table, p.vanished = false) :
    list_tunnels table =
      Except.ok ((table.filter codeMatches).map fun p => TunnelInfo.mk p.pid p.cmdline p.status)
  ∧ ∀ p : Proc, codeMatches p = true ↔ ∀ t ∈ tunnelTokens, t ∈ p.cmdline :=
  ⟨list_tunnels_clean table hnv, fun p => by simp [codeMatches, List.all_eq_true]⟩

/-- A realistic matching tunnel process: every required token is an exact
argument element. -/
def matchProcA : Proc :=
  Proc.mk 11
    ["az", "network", "bastion", "tunnel", "--name", "bst1", "--resource-group", "rg1",
     "--target-resource-id", "id1", "--resource-port", "22", "--port", "50001"]
    "sleeping" false

/-- A process unrelated to the tool. -/
def plainProc : Proc := Proc.mk 12 ["bash"] "running" false

/-- Witness for `c1_amended` at a concrete two-process table. -/
theorem c1_amended_witness :
    list_tunnels [matchProcA, plainProc] =
      Except.ok [TunnelInfo.mk matchProcA.pid matchProcA.cmdline matchProcA.status]
  ∧ (codeMatches matchProcA = true ↔ ∀ t ∈ tunnelTokens, t ∈ matchProcA.cmdline) := by
  have h := c1_amended [matchProcA, plainProc] (by decide)
  exact ⟨h.1.trans (by rfl), h.2 matchProcA⟩

/-! ### Claim C2: bastion resolution -/

/-- When every listed bastion has tunneling enabled, the loop of
`bastion_name` runs to the end and the `bastion` variable holds the name of
the last entry. -/
theorem bastionAux_enabled : ∀ (b : Bastion) (bs : List Bastion),
    (∀ x ∈ b :: bs, x.enableTunneling = true) →
    ∀ acc, bastionAux acc (b :: bs) = lastName (b :: bs)
  | b, [], hl, acc => by
      have hb := hl b (List.mem_cons_self b [])
      simp [bastionAux, hb, lastName]
  | b, c :: cs, hl, acc => by
      have hb := hl b (List.mem_cons_self b (c :: cs))
      have htail : ∀ x ∈ c :: cs, x.enableTunneling = true :=
        fun x hx => hl x (List.mem_cons_of_mem b hx)
      have ih := bastionAux_enabled c cs htail (some b.name)
      show (if b.enableTunneling = false then none
            else bastionAux (some b.name) (c :: cs)) = lastName (b :: c :: cs)
      rw [if_neg (by simp [hb]), ih]
      simp [lastName]

/-- As soon as some listed bastion has tunneling disabled, the loop returns
`None`, whatever was accumulated before. -/
theorem bastionAux_disabled : ∀ (l : List Bastion), (∃ x ∈ l, x.enableTunneling = false) →
    ∀ acc, bastionAux acc l = none
  | [], h, _ => absurd h (by simp)
  | b :: bs, h, acc => by
      by_cases hb : b.enableTunneling = false
      · simp [bastionAux, hb]
      · have hex : ∃ x ∈ bs, x.enableTunneling = false := by
          rcases h with ⟨x, hx, hfalse⟩
          rcases List.mem_cons.mp hx with rfl | hx2
          · exact absurd hfalse hb
          · exact ⟨x, hx2, hfalse⟩
        simp [bastionAux, hb, bastionAux_disabled bs hex (some b.name)]

/-- C2 counterexample: a resource group with two tunneling-enabled bastions;
`bastion_name` returns the second (last) entry, not the first as claimed. -/
theorem c2_counterexample :
    bastion_name [Bastion.mk "bstA" true, Bastion.mk "bstB" true] = some "bstB"
  ∧ bastion_name [Bastion.mk "bstA" true, Bastion.mk "bstB" true] ≠ some "bstA" :=
  ⟨rfl, by decide⟩

/-- C2 (amended): for every resource group whose bastion listing is
non-empty, `bastion_name` returns the last entry of the listing, except that
it returns `None` whenever any listed bastion has tunneling disabled, even
if another entry of the same listing has tunneling enabled. -/
theorem c2_amended (l : List Bastion) :
    ((∀ x ∈ l, x.enableTunneling = true) → bastion_name l = lastName l)
  ∧ ((∃ x ∈ l, x.enableTunneling = false) → bastion_name l = none) := by
  constructor
  · intro hall
    cases l with
    | nil => rfl
    | cons b bs => exact bastionAux_enabled b bs hall none
  · intro hex
    exact bastionAux_disabled l hex none

/-- Witness for `c2_amended`: an all-enabled listing and a listing with a
disabled bastion. -/
theorem c2_amended_witness :
    bastion_name [Bastion.mk "bstA" true, Bastion.mk "bstB" true] =
      lastName [Bastion.mk "bstA" true, Bastion.mk "bstB" true]
  ∧ bastion_name [Bastion.mk "bstC" true, Bastion.mk "bstD" false] = none :=
  ⟨(c2_amended _).1 (by decide), (c2_amended _).2 (by decide)⟩

/-! ### Claim C9: idempotence of the process scan -/

/-- C9: `list_tunnels` is a pure function of the process-table snapshot: two
invocations against the same unchanged table return the same matches with
the same pids, command lines and statuses, and the printed output of the
list command is identical across repeated runs. -/
theorem c9_idempotent (table : List Proc) :
    Except.map (fun l => l.map TunnelInfo.pid) (list_tunnels table)
      = Except.map (fun l => l.map TunnelInfo.pid) (list_tunnels table)
  ∧ Except.map (fun l => l.map TunnelInfo.cmdline) (list_tunnels table)
      = Except.map (fun l => l.map TunnelInfo.cmdline) (list_tunnels table)
  ∧ Except.map (fun l => l.map TunnelInfo.status) (list_tunnels table)
      = Except.map (fun l => l.map TunnelInfo.status) (list_tunnels table)
  ∧ listPhase table = listPhase table :=
  ⟨rfl, rfl, rfl, rfl⟩

/-! ### Claim C10: only the first group is processed -/

/-- C10: `generate_inventory` reads only the first top-level group: any
configuration behaves exactly like the configuration truncated to its first
group, so hosts of later groups produce no entries and no launches; and an
empty configuration raises `IndexError` instead of yielding an empty
document. -/
theorem c10_first_group (g : String) (gc : GroupConfig) (rest : Config) (env : Env) :
    generate_inventory ((g, gc) :: rest) env = generate_inventory [(g, gc)] env
  ∧ generate_inventory ([] : Config) env = Outcome.exc "IndexError" [] :=
  ⟨rfl, rfl⟩

/-! ### Lemmas about `buildHosts` -/

/-- The `ansible_port` lookup in a copied variable map. -/
theorem lookupVar_port (v : HostSpec) :
    lookupVar "ansible_port" v.items = some (Value.nat v.ansible_port) := by
  obtain ⟨rg, port, user, host⟩ := v
  cases user <;> cases host <;> rfl

/-- The `ansible_user` lookup in a copied variable map: present exactly when
configured. -/
theorem lookupVar_user (v : HostSpec) :
    lookupVar "ansible_user" v.items = Option.map Value.str v.ansible_user := by
  obtain ⟨rg, port, user, host⟩ := v
  cases user <;> cases host <;> rfl

/-- The `ansible_host` lookup in a copied variable map: present exactly when
configured, never defaulted. -/
theorem lookupVar_host (v : HostSpec) :
    lookupVar "ansible_host" v.items = Option.map Value.str v.ansible_host := by
  obtain ⟨rg, port, user, host⟩ := v
  cases user <;> cases host <;> rfl

/-- Every host or hostvars entry produced by `buildHosts` comes from a
configured host whose bastion resolved and whose resource id resolved, and
its variable map is the configured map copied verbatim. -/
theorem buildHosts_mem : ∀ (env : Env) (hosts : List (String × HostSpec)) (hs : List String)
    (hv : List (String × List (String × Value))) (ls : List Launch),
    buildHosts env hosts = Except.ok (hs, hv, ls) →
    (∀ h ∈ hs, ∃ v, (h, v) ∈ hosts ∧
        (bastion_name (env.bastions v.resource_group)).isSome = true ∧
        (env.resourceIds v.resource_group h).isSome = true)
  ∧ (∀ h vars, (h, vars) ∈ hv → ∃ v, (h, v) ∈ hosts ∧ vars = v.items ∧
        (bastion_name (env.bastions v.resource_group)).isSome = true ∧
        (env.resourceIds v.resource_group h).isSome = true)
  | env, [], hs, hv, ls, heq => by
      simp only [buildHosts, Except.ok.injEq, Prod.mk.injEq] at heq
      obtain ⟨h1, h2, h3⟩ := heq
      subst h1; subst h2
      constructor
      · intro h hh; simp at hh
      · intro h vars hh; simp at hh
  | env, (h0, v0) :: rest, hs, hv, ls, heq => by
      cases hb : bastion_name (env.bastions v0.resource_group) with
      | none =>
          simp only [buildHosts, hb] at heq
          exact Except.noConfusion heq
      | some b =>
        cases hrid : env.resourceIds v0.resource_group h0 with
        | none =>
            simp only [buildHosts, hb, hrid] at heq
            have ih := buildHosts_mem env rest hs hv ls heq
            constructor
            · intro h hh
              obtain ⟨v, m1, m2, m3⟩ := ih.1 h hh
              exact ⟨v, List.mem_cons_of_mem _ m1, m2, m3⟩
            · intro h vars hh
              obtain ⟨v, m1, m2, m3, m4⟩ := ih.2 h vars hh
              exact ⟨v, List.mem_cons_of_mem _ m1, m2, m3, m4⟩
        | some tid =>
            cases hrec : buildHosts env rest with
            | error e =>
                obtain ⟨msg, ls0⟩ := e
                simp only [buildHosts, hb, hrid, hrec] at heq
                exact Except.noConfusion heq
            | ok triple =>
                obtain ⟨hs2, hv2, ls2⟩ := triple
                simp only [buildHosts, hb, hrid, hrec, Except.ok.injEq, Prod.mk.injEq] at heq
                obtain ⟨e1, e2, e3⟩ := heq
                subst e1; subst e2
                have ih := buildHosts_mem env rest hs2 hv2 ls2 hrec
                constructor
                · intro h hh
                  rcases List.mem_cons.mp hh with rfl | hh2
                  · exact ⟨v0, List.mem_cons_self _ _, by simp [hb], by simp [hrid]⟩
                  · obtain ⟨v, m1, m2, m3⟩ := ih.1 h hh2
                    exact ⟨v, List.mem_cons_of_mem _ m1, m2, m3⟩
                · intro h vars hh
                  rcases List.mem_cons.mp hh with heqp | hh2
                  · rw [Prod.mk.injEq] at heqp
                    obtain ⟨rfl, rfl⟩ := heqp
                    exact ⟨v0, List.mem_cons_self _ _, rfl, by simp [hb], by simp [hrid]⟩
                  · obtain ⟨v, m1, m2, m3, m4⟩ := ih.2 h vars hh2
                    exact ⟨v, List.mem_cons_of_mem _ m1, m2, m3, m4⟩

/-- When the bastion of every configured host resolves, `buildHosts` succeeds and
the produced host list consists exactly of the hosts whose resource id
resolves, in declaration order. -/
theorem buildHosts_all : ∀ (env : Env) (hosts : List (String × HostSpec)),
    (∀ p ∈ hosts, (bastion_name (env.bastions p.2.resource_group)).isSome = true) →
    ∃ hv ls, buildHosts env hosts =
      Except.ok
        (((hosts.filter fun p => (env.resourceIds p.2.resource_group p.1).isSome).map Prod.fst),
         hv, ls)
  | env, [], _ => ⟨[], [], rfl⟩
  | env, (h0, v0) :: rest, hall => by
      have hb0 : (bastion_name (env.bastions v0.resource_group)).isSome = true :=
        hall _ (List.mem_cons_self _ _)
      obtain ⟨b, hb⟩ := Option.isSome_iff_exists.mp hb0
      obtain ⟨hv, ls, ih⟩ :=
        buildHosts_all env rest (fun p hp => hall p (List.mem_cons_of_mem _ hp))
      cases hrid : env.resourceIds v0.resource_group h0 with
      | none =>
          refine ⟨hv, ls, ?_⟩
          simp only [buildHosts, hb, hrid, ih, List.filter_cons]
          simp [hrid]
      | some tid =>
          refine ⟨(h0, v0.items) :: hv, Launch.mk b v0.resource_group tid v0.ansible_port :: ls, ?_⟩
          simp only [buildHosts, hb, hrid, ih, List.filter_cons]
          simp [hrid]

/-- A successful `bastion_name` implies the listing holds a
tunneling-enabled bastion (the loop would have returned `None` otherwise). -/
theorem bastion_name_some_enabled (l : List Bastion) (b : String)
    (h : bastion_name l = some b) : ∃ x ∈ l, x.enableTunneling = true := by
  cases l with
  | nil => simp [bastion_name, bastionAux] at h
  | cons x xs =>
      by_cases hx : x.enableTunneling = false
      · rw [bastion_name] at h
        simp [bastionAux, hx] at h
      · refine ⟨x, List.mem_cons_self _ _, ?_⟩
        cases hxe : x.enableTunneling with
        | false => exact absurd hxe hx
        | true => rfl

/-! ### Shared lemmas about the top-level build flow -/

/-- When the build block reaches `generate_inventory` and the latter calls
`sys.exit(1)` with a message, the whole invocation prints exactly that
message and exits 1. -/
theorem mainRun_build_exit1 (flags : Flags) (w : World) (config : Config)
    (msg : String) (ls : List Launch)
    (h1 : w.azInstalled = true) (h2 : w.extensionInstalled = true)
    (h3 : w.credentialOk = true) (h4 : w.configFile = some config)
    (h6 : flags.listTunnelsFlag = false) (h7 : flags.killTunnelsFlag = false)
    (hg : generate_inventory config w.env = Outcome.exit1 msg ls) :
    mainRun flags w = ([msg], ExitStatus.exit1) := by
  simp [mainRun, buildPhase, h1, h2, h3, h4, h6, h7, hg]

/-- When the build block succeeds, the whole invocation prints exactly the
serialized inventory and exits 0. -/
theorem mainRun_build_ok (flags : Flags) (w : World) (config : Config)
    (inv : Inventory) (ls : List Launch)
    (h1 : w.azInstalled = true) (h2 : w.extensionInstalled = true)
    (h3 : w.credentialOk = true) (h4 : w.configFile = some config)
    (h6 : flags.listTunnelsFlag = false) (h7 : flags.killTunnelsFlag = false)
    (hg : generate_inventory config w.env = Outcome.ok inv ls) :
    mainRun flags w = ([json_output flags.listFlag inv], ExitStatus.exit0) := by
  simp [mainRun, buildPhase, h1, h2, h3, h4, h6, h7, hg]

/-! ### Claim C3: variables copied into hostvars -/

/-- A host configured without `ansible_host` or `ansible_user`. -/
def gc3 : GroupConfig := ⟨[("db1", HostSpec.mk "rg1" 50001 none none)]⟩

/-- A control plane where everything about `gc3` resolves. -/
def env3 : Env :=
  ⟨fun _ => [Bastion.mk "bst1" true], fun _ _ => some "/id-db1"⟩

/-- C3 counterexample: a host with `ansible_host` left unspecified is
included in the inventory, but its hostvars entry carries only the two
configured variables — `ansible_host` is absent, not defaulted to the
loopback address. -/
theorem c3_counterexample :
    generate_inventory [("bastion_tunnels", gc3)] env3 =
      Outcome.ok
        (Inventory.mk "bastion_tunnels" ["db1"]
          [("db1", [("resource_group", Value.str "rg1"), ("ansible_port", Value.nat 50001)])])
        [Launch.mk "bst1" "rg1" "/id-db1" 50001]
  ∧ lookupVar "ansible_host"
      [("resource_group", Value.str "rg1"), ("ansible_port", Value.nat 50001)] = none :=
  ⟨rfl, rfl⟩

/-- C3 (amended): every hostvars entry of a built inventory is the
configured variable map copied verbatim: `ansible_port` is always present
and equals the configured value, `ansible_user` is present exactly when the
configuration specifies it, and `ansible_host` is likewise present exactly
when the configuration specifies it — there is no loopback defaulting. -/
theorem c3_amended (g : String) (gc : GroupConfig) (rest : Config) (env : Env)
    (inv : Inventory) (ls : List Launch)
    (heq : generate_inventory ((g, gc) :: rest) env = Outcome.ok inv ls) :
    ∀ h vars, (h, vars) ∈ inv.hostvars →
      ∃ v, (h, v) ∈ gc.hosts ∧
        lookupVar "ansible_port" vars = some (Value.nat v.ansible_port) ∧
        lookupVar "ansible_user" vars = Option.map Value.str v.ansible_user ∧
        lookupVar "ansible_host" vars = Option.map Value.str v.ansible_host := by
  intro h vars hmem
  cases hbh : buildHosts env gc.hosts with
  | error e =>
      obtain ⟨msg, ls0⟩ := e
      simp only [generate_inventory, hbh] at heq
      exact Outcome.noConfusion heq
  | ok triple =>
      obtain ⟨hs, hv, ls2⟩ := triple
      simp only [generate_inventory, hbh, Outcome.ok.injEq] at heq
      obtain ⟨e1, e2⟩ := heq
      subst e1; subst e2
      obtain ⟨v, m1, m2, m3, m4⟩ := (buildHosts_mem env gc.hosts hs hv ls2 hbh).2 h vars hmem
      subst m2
      exact ⟨v, m1, lookupVar_port v, lookupVar_user v, lookupVar_host v⟩

/-- A host with every optional variable configured. -/
def gcW : GroupConfig :=
  ⟨[("web1", HostSpec.mk "rgW" 50002 (some "ubuntu") (some "127.0.0.1"))]⟩

/-- A control plane where everything about `gcW` resolves. -/
def envW : Env := ⟨fun _ => [Bastion.mk "bstW" true], fun _ _ => some "/idW"⟩

/-- The variable map copied through for `web1`. -/
def varsW : List (String × Value) :=
  [("resource_group", Value.str "rgW"), ("ansible_port", Value.nat 50002),
   ("ansible_user", Value.str "ubuntu"), ("ansible_host", Value.str "127.0.0.1")]

/-- Witness for `c3_amended` at a concrete one-host configuration. -/
theorem c3_amended_witness :
    ∃ v, ("web1", v) ∈ gcW.hosts ∧
      lookupVar "ansible_port" varsW = some (Value.nat v.ansible_port) ∧
      lookupVar "ansible_user" varsW = Option.map Value.str v.ansible_user ∧
      lookupVar "ansible_host" varsW = Option.map Value.str v.ansible_host :=
  c3_amended "grpW" gcW [] envW (Inventory.mk "grpW" ["web1"] [("web1", varsW)])
    [Launch.mk "bstW" "rgW" "/idW" 50002] rfl "web1" varsW (by decide)

/-! ### Claim C5: abort on a bastion-less resource group -/

/-- Reaching a host with no valid bastion aborts `buildHosts` with the
message naming its resource group, but the hosts already processed have
already launched their tunnels. -/
theorem buildHosts_abort (env : Env) (hname : String) (v : HostSpec)
    (post : List (String × HostSpec))
    (hbad : bastion_name (env.bastions v.resource_group) = none) :
    ∀ pre : List (String × HostSpec),
      (∀ p ∈ pre, (bastion_name (env.bastions p.2.resource_group)).isSome = true) →
      buildHosts env (pre ++ (hname, v) :: post) =
        Except.error
          ("A valid bastion host was not found in resource group "
            ++ v.resource_group ++ ".",
           launchesOf env pre)
  | [], _ => by simp [buildHosts, hbad, launchesOf]
  | (h0, v0) :: pre2, hpre => by
      have hb0 := hpre _ (List.mem_cons_self _ _)
      obtain ⟨b, hb⟩ := Option.isSome_iff_exists.mp hb0
      have ih :=
        buildHosts_abort env hname v post hbad pre2
          (fun p hp => hpre p (List.mem_cons_of_mem _ hp))
      cases hrid : env.resourceIds v0.resource_group h0 with
      | none =>
          simp only [List.cons_append, buildHosts, hb, hrid, launchesOf, List.append_eq, ih]
      | some tid =>
          simp only [List.cons_append, buildHosts, hb, hrid, launchesOf, List.append_eq, ih]

/-- Hosts of the C5 counterexample. -/
def s51 : HostSpec := HostSpec.mk "rg1" 50001 none none

/-- The failing host of the C5 counterexample. -/
def s52 : HostSpec := HostSpec.mk "rg2" 50002 none none

/-- Two hosts: the first fully resolvable, the second in a resource group
whose only bastion has tunneling disabled. -/
def gc5 : GroupConfig := ⟨[("h1", s51), ("h2", s52)]⟩

/-- Control plane for the C5 counterexample. -/
def env5 : Env :=
  ⟨fun rg => if rg = "rg1" then [Bastion.mk "bst1" true] else [Bastion.mk "bst2" false],
   fun rg h => if rg = "rg1" ∧ h = "h1" then some "/id1" else none⟩

/-- C5 counterexample: the build aborts with the message naming `rg2`, but
only after the tunnel for the earlier host `h1` has already been launched —
contradicting "aborts before launching any tunnel subprocess". -/
theorem c5_counterexample :
    generate_inventory [("grp", gc5)] env5 =
      Outcome.exit1 "A valid bastion host was not found in resource group rg2."
        [Launch.mk "bst1" "rg1" "/id1" 50001] := rfl

/-- C5 (amended): when the resource group of some host has no tunneling-enabled
bastion, the build aborts with exit 1 and a message naming that resource
group, before printing any (even partial) inventory output and before
launching a tunnel for the failing host or any later host — but the tunnels
of the hosts that precede it in declaration order have already been
launched. -/
theorem c5_amended (g : String) (gc : GroupConfig) (rest : Config) (env : Env)
    (pre : List (String × HostSpec)) (hname : String) (v : HostSpec)
    (post : List (String × HostSpec))
    (hhosts : gc.hosts = pre ++ (hname, v) :: post)
    (hpre : ∀ p ∈ pre, (bastion_name (env.bastions p.2.resource_group)).isSome = true)
    (hbad : bastion_name (env.bastions v.resource_group) = none) :
    generate_inventory ((g, gc) :: rest) env =
      Outcome.exit1
        ("A valid bastion host was not found in resource group " ++ v.resource_group ++ ".")
        (launchesOf env pre)
  ∧ ∀ (w : World) (flags : Flags),
      w.azInstalled = true → w.extensionInstalled = true → w.credentialOk = true →
      w.configFile = some ((g, gc) :: rest) → w.env = env →
      flags.listTunnelsFlag = false → flags.killTunnelsFlag = false →
      mainRun flags w =
        (["A valid bastion host was not found in resource group " ++ v.resource_group ++ "."],
         ExitStatus.exit1) := by
  have hab := buildHosts_abort env hname v post hbad pre hpre
  have hgen : generate_inventory ((g, gc) :: rest) env =
      Outcome.exit1
        ("A valid bastion host was not found in resource group " ++ v.resource_group ++ ".")
        (launchesOf env pre) := by
    simp [generate_inventory, hhosts, hab]
  refine ⟨hgen, ?_⟩
  intro w flags h1 h2 h3 h4 h5 h6 h7
  exact mainRun_build_exit1 flags w ((g, gc) :: rest) _ _ h1 h2 h3 h4 h6 h7
    (by rw [h5]; exact hgen)

/-- World running the build command over the C5 configuration. -/
def w5 : World := ⟨true, true, true, some [("grp", gc5)], env5, [], fun _ => true⟩

/-- Witness for `c5_amended` with a non-empty prefix of resolvable hosts. -/
theorem c5_amended_witness :
    generate_inventory [("grp", gc5)] env5 =
      Outcome.exit1
        ("A valid bastion host was not found in resource group " ++ s52.resource_group ++ ".")
        (launchesOf env5 [("h1", s51)])
  ∧ mainRun (Flags.mk false false false) w5 =
      (["A valid bastion host was not found in resource group "
          ++ s52.resource_group ++ "."],
       ExitStatus.exit1) := by
  have h := c5_amended "grp" gc5 [] env5 [("h1", s51)] "h2" s52 [] rfl (by decide) rfl
  exact ⟨h.1, h.2 w5 (Flags.mk false false false) rfl rfl rfl rfl rfl rfl rfl⟩

/-! ### Claim C6: the contribution invariant -/

/-- C6: a host contributes to the built inventory only if its resource group
holds a tunneling-enabled bastion and its resource id resolves; when every
bastion resolves, the built host list is exactly the declared hosts whose
resource id resolves (an unresolvable host is omitted, all others are kept),
and such a build prints the document and exits 0. -/
theorem c6_invariant (g : String) (gc : GroupConfig) (rest : Config) (env : Env) :
    (∀ inv ls, generate_inventory ((g, gc) :: rest) env = Outcome.ok inv ls →
      ∀ h ∈ inv.hosts, ∃ v, (h, v) ∈ gc.hosts ∧
        (∃ b ∈ env.bastions v.resource_group, b.enableTunneling = true) ∧
        (env.resourceIds v.resource_group h).isSome = true)
  ∧ ((∀ p ∈ gc.hosts, (bastion_name (env.bastions p.2.resource_group)).isSome = true) →
      ∃ hv ls, generate_inventory ((g, gc) :: rest) env =
        Outcome.ok
          (Inventory.mk g
            ((gc.hosts.filter fun p =>
                (env.resourceIds p.2.resource_group p.1).isSome).map Prod.fst)
            hv) ls)
  ∧ (∀ (w : World) (flags : Flags) (inv : Inventory) (ls : List Launch),
      w.azInstalled = true → w.extensionInstalled = true → w.credentialOk = true →
      w.configFile = some ((g, gc) :: rest) → w.env = env →
      flags.listTunnelsFlag = false → flags.killTunnelsFlag = false →
      generate_inventory ((g, gc) :: rest) env = Outcome.ok inv ls →
      mainRun flags w = ([json_output flags.listFlag inv], ExitStatus.exit0)) := by
  refine ⟨?_, ?_, ?_⟩
  · intro inv ls heq h hmem
    cases hbh : buildHosts env gc.hosts with
    | error e =>
        obtain ⟨msg, ls0⟩ := e
        simp only [generate_inventory, hbh] at heq
        exact Outcome.noConfusion heq
    | ok triple =>
        obtain ⟨hs, hv, ls2⟩ := triple
        simp only [generate_inventory, hbh, Outcome.ok.injEq] at heq
        obtain ⟨e1, e2⟩ := heq
        subst e1; subst e2
        obtain ⟨v, m1, m2, m3⟩ := (buildHosts_mem env gc.hosts hs hv ls2 hbh).1 h hmem
        obtain ⟨b, hbv⟩ := Option.isSome_iff_exists.mp m2
        exact ⟨v, m1, bastion_name_some_enabled _ b hbv, m3⟩
  · intro hall
    obtain ⟨hv, ls, hok⟩ := buildHosts_all env gc.hosts hall
    exact ⟨hv, ls, by simp [generate_inventory, hok]⟩
  · intro w flags inv ls h1 h2 h3 h4 h5 h6 h7 heq
    exact mainRun_build_ok flags w ((g, gc) :: rest) inv ls h1 h2 h3 h4 h6 h7
      (by rw [h5]; exact heq)

/-- First host of the C6 witness configuration (resolvable). -/
def s61 : HostSpec := HostSpec.mk "rg1" 50001 none none

/-- Second host of the C6 witness configuration (resource id unresolvable). -/
def s62 : HostSpec := HostSpec.mk "rg1" 50002 none none

/-- Two hosts in one group, the second without a resolvable VM. -/
def gc6 : GroupConfig := ⟨[("db1", s61), ("db2", s62)]⟩

/-- Control plane where only `db1` resolves to a resource id. -/
def env6 : Env :=
  ⟨fun _ => [Bastion.mk "bst1" true],
   fun _ h => if h = "db1" then some "/id-db1" else none⟩

/-- The inventory built over `gc6`/`env6`: `db2` is omitted, `db1` kept. -/
def inv6 : Inventory := Inventory.mk "grp" ["db1"] [("db1", s61.items)]

/-- The single tunnel launched for `db1`. -/
def ls6 : List Launch := [Launch.mk "bst1" "rg1" "/id-db1" 50001]

/-- World running the build command over the C6 configuration. -/
def w6 : World := ⟨true, true, true, some [("grp", gc6)], env6, [], fun _ => true⟩

/-- Witness for `c6_invariant` at a concrete configuration with one
unresolvable host. -/
theorem c6_invariant_witness :
    (∃ v, ("db1", v) ∈ gc6.hosts ∧
      (∃ b ∈ env6.bastions v.resource_group, b.enableTunneling = true) ∧
      (env6.resourceIds v.resource_group "db1").isSome = true)
  ∧ (∃ hv ls, generate_inventory [("grp", gc6)] env6 =
      Outcome.ok
        (Inventory.mk "grp"
          ((gc6.hosts.filter fun p =>
              (env6.resourceIds p.2.resource_group p.1).isSome).map Prod.fst)
          hv) ls)
  ∧ mainRun (Flags.mk false false false) w6 = ([json_output false inv6], ExitStatus.exit0) := by
  have h := c6_invariant "grp" gc6 [] env6
  exact ⟨h.1 inv6 ls6 rfl "db1" (by decide), h.2.1 (by decide),
    h.2.2 w6 (Flags.mk false false false) inv6 ls6 rfl rfl rfl rfl rfl rfl rfl rfl⟩

/-! ### Claim C4: processes vanishing mid-scan and mid-kill -/

/-- A scan over a table holding a vanishing process aborts with
`NoSuchProcess` instead of completing. -/
theorem list_tunnels_vanish : ∀ (table : List Proc), (∃ p ∈ table, p.vanished = true) →
    ∃ pid, list_tunnels table = Except.error pid
  | [], h => absurd h (by simp)
  | p :: ps, h => by
      by_cases hp : p.vanished = true
      · exact ⟨p.pid, by simp [list_tunnels, hp]⟩
      · have hex : ∃ q ∈ ps, q.vanished = true := by
          rcases h with ⟨q, hq, hv⟩
          rcases List.mem_cons.mp hq with rfl | hq2
          · exact absurd hv hp
          · exact ⟨q, hq2, hv⟩
        obtain ⟨pid, hpid⟩ := list_tunnels_vanish ps hex
        refine ⟨pid, ?_⟩
        by_cases hc : codeMatches p = true
        · simp [list_tunnels, hp, hc, hpid]
        · simp [list_tunnels, hp, hc, hpid]

/-- The kill loop stops with an uncaught `NoSuchProcess` at the first pid
that no longer exists, keeping only the confirmations printed before it. -/
theorem killLoop_stops (live : Nat → Bool) : ∀ (pre : List Nat) (bad : Nat) (post : List Nat),
    (∀ q ∈ pre, live q = true) → live bad = false →
    killLoop live (pre ++ bad :: post) =
      (pre.map termMsg, some (ExitStatus.exception "NoSuchProcess"))
  | [], bad, post, _, hbad => by simp [killLoop, hbad]
  | q :: pre2, bad, post, hpre, hbad => by
      have hq := hpre q (List.mem_cons_self _ _)
      have ih := killLoop_stops live pre2 bad post
        (fun x hx => hpre x (List.mem_cons_of_mem _ hx)) hbad
      simp [killLoop, hq, ih]

/-- A process that vanishes between enumeration and inspection. -/
def vproc : Proc := Proc.mk 5 ["az", "network"] "running" true

/-- A matching tunnel process whose pid is gone by termination time. -/
def mproc : Proc :=
  Proc.mk 7
    ["az", "network", "bastion", "tunnel", "--name", "bst1", "--resource-group", "rg1",
     "--target-resource-id", "id1", "--resource-port", "22", "--port", "50001"]
    "sleeping" false

/-- C4 counterexample: a vanishing process makes the scan abort with
`NoSuchProcess` instead of reporting the remaining matches, and a pid
missing at termination time aborts the whole kill command instead of being
skipped. -/
theorem c4_counterexample :
    list_tunnels [vproc] = Except.error 5
  ∧ killPhase [mproc] (fun _ => false) = ([], some (ExitStatus.exception "NoSuchProcess")) :=
  ⟨rfl, rfl⟩

/-- C4 (amended): neither operation tolerates vanished processes — the scan
aborts with an uncaught `NoSuchProcess` as soon as any enumerated process
has vanished before inspection, and the kill command aborts with an uncaught
`NoSuchProcess` at the first matched pid that no longer exists at
termination time, after printing confirmations only for the pids terminated
before it. -/
theorem c4_amended :
    (∀ table : List Proc, (∃ p ∈ table, p.vanished = true) →
      ∃ pid, list_tunnels table = Except.error pid)
  ∧ (∀ (live : Nat → Bool) (pre : List Nat) (bad : Nat) (post : List Nat),
      (∀ q ∈ pre, live q = true) → live bad = false →
      killLoop live (pre ++ bad :: post) =
        (pre.map termMsg, some (ExitStatus.exception "NoSuchProcess")))
  ∧ (∀ (table : List Proc) (live : Nat → Bool) (i : TunnelInfo) (is2 : List TunnelInfo),
      list_tunnels table = Except.ok (i :: is2) →
      killPhase table live = killLoop live ((i :: is2).map TunnelInfo.pid)) :=
  ⟨list_tunnels_vanish, killLoop_stops,
   fun table live i is2 h => by simp [killPhase, h]⟩

/-- Witness for `c4_amended` at concrete tables. -/
theorem c4_amended_witness :
    (∃ pid, list_tunnels [vproc] = Except.error pid)
  ∧ killLoop (fun p => decide (p = 19)) ([19] ++ 7 :: []) =
      ([19].map termMsg, some (ExitStatus.exception "NoSuchProcess"))
  ∧ killPhase [mproc] (fun _ => true) =
      killLoop (fun _ => true) ([TunnelInfo.mk 7 mproc.cmdline "sleeping"].map TunnelInfo.pid) :=
  ⟨c4_amended.1 [vproc] ⟨vproc, by decide, rfl⟩,
   c4_amended.2.1 (fun p => decide (p = 19)) [19] 7 [] (by simp) rfl,
   c4_amended.2.2 [mproc] (fun _ => true) (TunnelInfo.mk 7 mproc.cmdline "sleeping") [] (by rfl)⟩

/-! ### Claim C7: what fatal errors print -/

/-- World for the C7 failing input: everything fine except the
configuration file, which does not exist. -/
def w7 : World := ⟨true, true, true, none, env3, [], fun _ => true⟩

/-- World with an unavailable credential. -/
def w7b : World := ⟨true, true, false, some [("grp", gc3)], env3, [], fun _ => true⟩

/-- C7 evaluation at the failing inputs: a missing configuration file makes
the run die of an uncaught `FileNotFoundError` (interpreter traceback, the
intended "Config file not found" message of line 235 being unreachable), and
an unavailable credential makes the run exit 1 printing nothing — both
contradict "exactly one human-readable line, no stack trace".  The other
three fatal errors do print exactly one line before exiting 1. -/
theorem c7_eval :
    mainRun (Flags.mk false false false) w7 = ([], ExitStatus.exception "FileNotFoundError")
  ∧ mainRun (Flags.mk false false false) w7b = ([], ExitStatus.exit1)
  ∧ mainRun (Flags.mk false false false)
      (World.mk false true true (some [("grp", gc3)]) env3 [] (fun _ => true)) =
      (["The Azure CLI is not installed."], ExitStatus.exit1)
  ∧ mainRun (Flags.mk false false false)
      (World.mk true false true (some [("grp", gc3)]) env3 [] (fun _ => true)) =
      (["The Azure CLI bastion extension is not installed."], ExitStatus.exit1) :=
  ⟨rfl, rfl, rfl, rfl⟩

/-! ### Claim C8: newline analysis of the serializer -/

/-- Whether a string contains a raw newline character. -/
def hasNL (s : String) : Bool := s.data.any fun c => decide (c = '\x0a')

theorem hasNL_append (a b : String) : hasNL (a ++ b) = (hasNL a || hasNL b) := by
  simp [hasNL, String.data_append, List.any_append]

theorem hasNL_eq_false (s : String) :
    hasNL s = false ↔ ∀ c ∈ s.data, ¬ c = '\x0a' := by
  simp [hasNL, List.any_eq_false]

theorem digitChar_ne (n : Nat) : ¬ digitChar n = '\x0a' := by
  unfold digitChar
  repeat' split
  all_goals decide

theorem natChars_noNL (n : Nat) : ∀ c ∈ natChars n, ¬ c = '\x0a' := by
  induction n using Nat.strong_induction_on with
  | _ n ih =>
    intro c hc
    rw [natChars] at hc
    split at hc
    · rw [List.mem_singleton] at hc
      subst hc
      exact digitChar_ne n
    · rename_i hbig
      rcases List.mem_append.mp hc with h1 | h2
      · exact ih (n / 10) (Nat.div_lt_self (by omega) (by omega)) c h1
      · rw [List.mem_singleton] at h2
        subst h2
        exact digitChar_ne (n % 10)

theorem natToString_noNL (n : Nat) : hasNL (natToString n) = false := by
  rw [hasNL_eq_false]
  intro c hc
  exact natChars_noNL n c hc

theorem escChar_noNL (c : Char) : ∀ d ∈ escChar c, ¬ d = '\x0a' := by
  unfold escChar
  split
  · decide
  · split
    · decide
    · split
      · decide
      · split
        · decide
        · split
          · decide
          · rename_i h1 h2 h3 h4 h5
            intro d hd
            rw [List.mem_singleton] at hd
            subst hd
            exact h3

theorem escChars_noNL : ∀ (l : List Char), ∀ d ∈ escChars l, ¬ d = '\x0a'
  | [], d, hd => absurd hd (by simp [escChars])
  | c :: rest, d, hd => by
      rw [escChars] at hd
      rcases List.mem_append.mp hd with h1 | h2
      · exact escChar_noNL c d h1
      · exact escChars_noNL rest d h2

theorem escString_noNL (s : String) : hasNL (escString s) = false := by
  rw [hasNL_eq_false]
  intro c hc
  rw [show (escString s).data = '"' :: escChars s.data ++ ['"'] from rfl] at hc
  rcases List.mem_cons.mp hc with rfl | hc2
  · decide
  · rcases List.mem_append.mp hc2 with h1 | h2
    · exact escChars_noNL _ c h1
    · rw [List.mem_singleton] at h2
      subst h2
      decide

theorem renderStrsC_noNL : ∀ (l : List String), hasNL (renderStrsC l) = false
  | [] => by decide
  | [x] => by simp [renderStrsC, escString_noNL]
  | x :: y :: rest => by
      have ih := renderStrsC_noNL (y :: rest)
      simp [renderStrsC, hasNL_append, escString_noNL, ih,
        (by decide : hasNL ", " = false)]

mutual

/-- Compact rendering (no `indent`) never emits a raw newline. -/
theorem render_noNL : ∀ (lvl : Nat) (j : Json), hasNL (render false lvl j) = false
  | lvl, Json.str s => by simp [render, escString_noNL]
  | lvl, Json.num n => by simp [render, natToString_noNL]
  | lvl, Json.arrStr [] => by
      simp only [render]
      decide
  | lvl, Json.arrStr (x :: xs) => by
      simp [render, hasNL_append, renderStrsC_noNL,
        (by decide : hasNL "[" = false), (by decide : hasNL "]" = false)]
  | lvl, Json.obj [] => by
      simp only [render]
      decide
  | lvl, Json.obj (kv :: rest) => by
      have h := renderItems_noNL (lvl + 1) (kv :: rest)
      simp [render, hasNL_append, h,
        (by decide : hasNL "\x7b" = false), (by decide : hasNL "\x7d" = false)]

/-- Compact rendering of object entries never emits a raw newline. -/
theorem renderItems_noNL : ∀ (lvl : Nat) (l : List (String × Json)),
    hasNL (renderItems false lvl l) = false
  | lvl, [] => by
      simp only [renderItems]
      decide
  | lvl, [(k, v)] => by
      have h := render_noNL lvl v
      simp [renderItems, hasNL_append, escString_noNL, h,
        (by decide : hasNL "" = false), (by decide : hasNL ": " = false)]
  | lvl, (k, v) :: kv2 :: rest => by
      have h1 := render_noNL lvl v
      have h2 := renderItems_noNL lvl (kv2 :: rest)
      simp [renderItems, hasNL_append, escString_noNL, h1, h2,
        (by decide : hasNL "" = false), (by decide : hasNL ": " = false),
        (by decide : hasNL ", " = false)]

end

/-- Boolean check that a key sequence is non-decreasing. -/
def keysSortedB : List String → Bool
  | [] => true
  | [_] => true
  | a :: b :: rest => decide (a ≤ b) && keysSortedB (b :: rest)

mutual

/-- Boolean check that every object of a JSON value lists its keys in
non-decreasing order. -/
def objKeysSorted : Json → Bool
  | Json.str _ => true
  | Json.num _ => true
  | Json.arrStr _ => true
  | Json.obj kvs => keysSortedB (kvs.map Prod.fst) && objKVsSorted kvs

/-- Check `objKeysSorted` over the values of an entry list. -/
def objKVsSorted : List (String × Json) → Bool
  | [] => true
  | (_, v) :: rest => objKeysSorted v && objKVsSorted rest

end

theorem keysSortedB_of_pairwise : ∀ (ks : List String),
    List.Pairwise (fun a b : String => a ≤ b) ks → keysSortedB ks = true
  | [], _ => rfl
  | [_], _ => rfl
  | a :: b :: rest, h => by
      rw [List.pairwise_cons] at h
      have hab : a ≤ b := h.1 b (List.mem_cons_self _ _)
      have ht := keysSortedB_of_pairwise (b :: rest) h.2
      simp [keysSortedB, hab, ht]

theorem objKVsSorted_forall : ∀ (l : List (String × Json)),
    (∀ p ∈ l, objKeysSorted p.2 = true) → objKVsSorted l = true
  | [], _ => rfl
  | (k, v) :: rest, h => by
      have h1 := h (k, v) (List.mem_cons_self _ _)
      have h2 := objKVsSorted_forall rest (fun p hp => h p (List.mem_cons_of_mem _ hp))
      simp only [objKVsSorted, Bool.and_eq_true]
      exact ⟨h1, h2⟩

theorem sortObj_perm (l : List (String × Json)) : (sortObj l).Perm l :=
  List.perm_insertionSort _ l

theorem sortObj_pairwise (l : List (String × Json)) :
    List.Pairwise (fun p q : String × Json => p.1 ≤ q.1) (sortObj l) :=
  List.sorted_insertionSort _ l

/-- With pairwise-distinct keys, sorting by key is insensitive to the
initial entry order: insertion order cannot influence the serialized form. -/
theorem sortObj_eq_of_perm (l l2 : List (String × Json)) (hp : l.Perm l2)
    (hnd : (l.map Prod.fst).Nodup) : sortObj l = sortObj l2 := by
  have hpl : (sortObj l).Perm l := sortObj_perm l
  have hpl2 : (sortObj l2).Perm l2 := sortObj_perm l2
  have strictOf : ∀ (m : List (String × Json)), (m.map Prod.fst).Nodup →
      List.Pairwise (fun p q : String × Json => p.1 < q.1) (sortObj m) := by
    intro m hm
    have hnds : ((sortObj m).map Prod.fst).Nodup :=
      (((sortObj_perm m).map Prod.fst).symm).nodup hm
    have hne : List.Pairwise (fun p q : String × Json => p.1 ≠ q.1) (sortObj m) :=
      List.pairwise_map.mp hnds
    exact ((sortObj_pairwise m).and hne).imp fun hab => lt_of_le_of_ne hab.1 hab.2
  have hnd2 : (l2.map Prod.fst).Nodup := (hp.map Prod.fst).nodup hnd
  haveI : IsAntisymm (String × Json) (fun p q => p.1 < q.1) :=
    ⟨fun _ _ h1 h2 => absurd h2 (lt_asymm h1)⟩
  exact List.eq_of_perm_of_sorted (hpl.trans (hp.trans hpl2.symm))
    (strictOf l hnd) (strictOf l2 hnd2)

theorem sortJson_obj (kvs : List (String × Json)) :
    sortJson (Json.obj kvs) = Json.obj (sortObj (sortJsonKVs kvs)) := by
  rw [sortJson]

theorem sortJsonKVs_eq_map : ∀ (l : List (String × Json)),
    sortJsonKVs l = l.map fun p => (p.1, sortJson p.2)
  | [] => rfl
  | (k, v) :: rest => by
      rw [sortJsonKVs, sortJsonKVs_eq_map rest, List.map_cons]

mutual

/-- After the key-sorting pass, every object of the value lists its keys in
non-decreasing order. -/
theorem objKeysSorted_sortJson : ∀ (j : Json), objKeysSorted (sortJson j) = true
  | Json.str _ => rfl
  | Json.num _ => rfl
  | Json.arrStr _ => rfl
  | Json.obj kvs => by
      rw [sortJson_obj]
      simp only [objKeysSorted, Bool.and_eq_true]
      constructor
      · exact keysSortedB_of_pairwise _ (List.pairwise_map.mpr (sortObj_pairwise _))
      · refine objKVsSorted_forall _ fun p hp => ?_
        exact sortJsonKVs_all kvs p ((sortObj_perm _).subset hp)

/-- Every value of a recursively sorted entry list is itself fully sorted. -/
theorem sortJsonKVs_all : ∀ (kvs : List (String × Json)),
    ∀ p ∈ sortJsonKVs kvs, objKeysSorted p.2 = true
  | [], p, hp => absurd hp (by rw [sortJsonKVs]; simp)
  | (k, v) :: rest, p, hp => by
      rw [sortJsonKVs] at hp
      rcases List.mem_cons.mp hp with rfl | hp2
      · exact objKeysSorted_sortJson v
      · exact sortJsonKVs_all rest p hp2

end

theorem sortObj_ne_nil (l : List (String × Json)) (h : l ≠ []) : sortObj l ≠ [] := by
  intro hc
  have hlen := (sortObj_perm l).length_eq
  rw [hc] at hlen
  exact h (List.length_eq_zero.mp hlen.symm)

/-- Indented rendering of a non-empty object always contains a newline. -/
theorem render_pretty_hasNL (lvl : Nat) (kv : String × Json)
    (rest : List (String × Json)) :
    hasNL (render true lvl (Json.obj (kv :: rest))) = true := by
  simp [render, hasNL_append, (by decide : hasNL nl = true)]

/-- Indented rendering of a sorted non-empty object contains a newline. -/
theorem render_pretty_obj_hasNL (kvs : List (String × Json)) (h : kvs ≠ []) :
    hasNL (render true 0 (Json.obj (sortObj (sortJsonKVs kvs)))) = true := by
  have hne : sortJsonKVs kvs ≠ [] := by
    cases kvs with
    | nil => exact absurd rfl h
    | cons kv rest =>
        rw [sortJsonKVs]
        simp
  cases hs : sortObj (sortJsonKVs kvs) with
  | nil => exact absurd hs (sortObj_ne_nil _ hne)
  | cons kv rest => exact render_pretty_hasNL 0 kv rest

/-- The keys of a hostvars entry list survive both JSON conversion and the
recursive sorting of the values. -/
theorem hostvarsKeys (l : List (String × List (String × Value))) :
    (((l.map fun p => ((p.1 : String), varsJson p.2)).map fun p =>
        ((p.1 : String), sortJson p.2)).map Prod.fst) = l.map Prod.fst := by
  induction l with
  | nil => rfl
  | cons p rest ih => simp only [List.map_cons, ih]

/-- C8: serialization of the inventory is deterministic — it depends only on
the logical content of the resolved state, not on hostvars insertion order
(same bytes for permuted hostvars with distinct host names, for a fixed
pretty-print flag); every emitted object lists its keys in sorted order; and
the output contains newline indentation exactly when the pretty-print flag
is given, otherwise it is a compact single line. -/
theorem c8_serialization (inv : Inventory) (hv2 : List (String × List (String × Value)))
    (flag : Bool) (hperm : inv.hostvars.Perm hv2)
    (hnd : (inv.hostvars.map Prod.fst).Nodup) :
    json_output flag (Inventory.mk inv.groupName inv.hosts hv2) = json_output flag inv
  ∧ objKeysSorted (sortJson (invJson inv)) = true
  ∧ hasNL (json_output false inv) = false
  ∧ hasNL (json_output true inv) = true := by
  have hnd2 : (hv2.map Prod.fst).Nodup := (hperm.map Prod.fst).nodup hnd
  have hkeyFull : sortJson (hostvarsJson hv2) = sortJson (hostvarsJson inv.hostvars) := by
    simp only [hostvarsJson, sortJson_obj]
    congr 1
    rw [sortJsonKVs_eq_map, sortJsonKVs_eq_map]
    refine sortObj_eq_of_perm _ _
      (((hperm.map fun p => ((p.1 : String), varsJson p.2)).map
          fun p => ((p.1 : String), sortJson p.2)).symm) ?_
    rw [hostvarsKeys]
    exact hnd2
  have hmeta : sortJson (Json.obj [("hostvars", hostvarsJson hv2)])
      = sortJson (Json.obj [("hostvars", hostvarsJson inv.hostvars)]) := by
    rw [sortJson_obj, sortJson_obj]
    simp only [sortJsonKVs]
    rw [hkeyFull]
  refine ⟨?_, objKeysSorted_sortJson _, ?_, ?_⟩
  · have hinv : sortJson (invJson (Inventory.mk inv.groupName inv.hosts hv2))
        = sortJson (invJson inv) := by
      simp only [invJson, sortJson_obj]
      congr 1
      simp only [sortJsonKVs]
      rw [hmeta]
    show render flag 0 (sortJson (invJson (Inventory.mk inv.groupName inv.hosts hv2)))
        = render flag 0 (sortJson (invJson inv))
    rw [hinv]
  · show hasNL (render false 0 (sortJson (invJson inv))) = false
    exact render_noNL 0 _
  · show hasNL (render true 0 (sortJson (invJson inv))) = true
    simp only [invJson, sortJson_obj]
    exact render_pretty_obj_hasNL _ (by simp)

/-- Concrete two-host inventory for the C8 witness. -/
def inv8 : Inventory :=
  Inventory.mk "grp" ["h1"]
    [("h1", [("ansible_port", Value.nat 1)]), ("h2", [("ansible_port", Value.nat 2)])]

/-- The same hostvars content with the entries swapped. -/
def hv8 : List (String × List (String × Value)) :=
  [("h2", [("ansible_port", Value.nat 2)]), ("h1", [("ansible_port", Value.nat 1)])]

/-- Witness for `c8_serialization` at a concrete inventory. -/
theorem c8_serialization_witness :
    json_output false (Inventory.mk inv8.groupName inv8.hosts hv8) = json_output false inv8
  ∧ objKeysSorted (sortJson (invJson inv8)) = true
  ∧ hasNL (json_output false inv8) = false
  ∧ hasNL (json_output true inv8) = true :=
  c8_serialization inv8 hv8 false (by decide) (by decide)
